import Mathlib

/-!
Verification of the blog-archiver pipeline (CLI `BlogArchiver`, its legacy
variant, and the browser-extension popup) against its design document.

The development shallowly embeds the JavaScript source:

* JS strings are modelled as lists of code units (`List Char`); JS
  `s.substring(0, n)` is `List.take n`, `s.startsWith(p)` compares the prefix.
* The TOC layout loop of `addTOC` works on PDF-point coordinates that are all
  multiples of 0.01 (the pdf-lib default page height 841.89pt minus integer
  offsets), and its only comparison is against the integer 100; the float
  arithmetic performed by the source is exact there, so coordinates are
  embedded as exact fixed-point integers counted in hundredths of a point.
* The viewport measurement arithmetic of `detectOptimalViewport` is embedded
  over `ℚ` (browser geometry values are reals; `Math.ceil` is `Int.ceil`,
  `* 1.05` is exact rational multiplication).
* `Math.floor(i * P / H)` on the natural quantities of the page estimate is
  embedded as natural division.
* Asynchronous browser effects (navigation, rendering) are irrelevant to the
  claims about the pure computations and are abstracted into the inputs those
  computations receive (measured geometry, extracted headings, page counts,
  per-job outcomes).
-/

set_option maxRecDepth 10000

namespace BlogScrapper

/-- JS strings viewed as sequences of UTF-16 code units. -/
abbrev JsStr : Type := List Char

/-- JS `s.substring(0, n) + (s.length > n ? '...' : '')` — the truncation
pattern `addTOC` applies to the URL header line and to each heading text. -/
def truncateWithEllipsis (n : Nat) (s : JsStr) : JsStr :=
  s.take n ++ (if n < s.length then "...".toList else [])

/-- One heading record returned by `extractHeadings` (`{level, text, id,
pageNumber}`; `id` and the always-null `pageNumber` play no role in the
composition claims). -/
structure Heading where
  level : Nat
  text : JsStr
deriving DecidableEq

/-- The content PDF buffer handed to `addTOC`: pdf-lib only exposes its page
count (`existingPdfDoc.getPageCount()`) to the layout; the bytes stand for
the buffer's identity. -/
structure ContentPdf where
  pageCount : Nat
  bytes : List Nat
deriving DecidableEq

/-- One `drawText` pair for a heading inside the TOC entry loop:
the truncated text, the estimated page label, which page object the text was
drawn on (the source always draws on `tocPage`, the page created before the
loop, index 0), how many TOC pages the output document holds at the moment
the entry is laid out, the indent, the font size, and the cursor position
(hundredths of a point). -/
structure TocEntry where
  drawnText : JsStr
  pageLabel : Nat
  drawnOnPage : Nat
  pagesWhenDrawn : Nat
  indent : Nat
  fontSize : Nat
  y : Int
deriving DecidableEq

/-- Mutable state of the TOC entry loop: the cursor `yPosition` (hundredths
of a point), the number of pages added to `pdfDoc` so far, the value of the
`currentPage` variable (initialised to 2, never reassigned in the source),
and the entries drawn so far. -/
structure TocState where
  yPosition : Int
  pagesAllocated : Nat
  currentPage : Nat
  entries : List TocEntry
deriving DecidableEq

/-- `const margin = 50` — 50pt, in hundredths of a point. -/
def tocMargin : Int := 5000

/-- pdf-lib `pdfDoc.addPage()` default page height: A4, 841.89pt, in
hundredths of a point. -/
def tocPageHeight : Int := 84189

/-- The overflow check opening each loop iteration:
`if (yPosition < margin + 50) { pdfDoc.addPage(); yPosition = height - margin }`
(`margin + 50` = 100pt). The freshly added page is bound to `newTocPage`,
which the source never uses again. -/
def tocOverflowCheck (st : TocState) : TocState :=
  if st.yPosition < tocMargin + 5000 then
    { st with yPosition := tocPageHeight - tocMargin,
              pagesAllocated := st.pagesAllocated + 1 }
  else st

/-- Body of `for (const heading of headings)` in `addTOC`.  `i` is the value
of `headings.indexOf(heading)`: the records are distinct objects, so the JS
strict-equality search always yields the loop position.  Both `drawText`
calls target `tocPage` (page index 0). -/
def tocStep (pageEstimate headingCount i : Nat) (h : Heading) (st : TocState) :
    TocState :=
  let st := tocOverflowCheck st
  let indent := (h.level - 1) * 20
  let fontSize := if h.level = 1 then 12 else 10
  let estimatedPage :=
    min (st.currentPage + i * pageEstimate / headingCount)
        (st.currentPage + pageEstimate - 1)
  let entry : TocEntry :=
    { drawnText := truncateWithEllipsis 60 h.text
      pageLabel := estimatedPage
      drawnOnPage := 0
      pagesWhenDrawn := st.pagesAllocated
      indent := indent
      fontSize := fontSize
      y := st.yPosition }
  { st with yPosition := st.yPosition - ((fontSize : Int) + 8) * 100,
            entries := st.entries ++ [entry] }

/-- The TOC entry loop over the heading list, carrying the running index. -/
def tocLoop (pageEstimate headingCount : Nat) :
    Nat → List Heading → TocState → TocState
  | _, [], st => st
  | i, h :: hs, st =>
      tocLoop pageEstimate headingCount (i + 1) hs
        (tocStep pageEstimate headingCount i h st)

/-- Result of `addTOC`: the header block drawn on the first TOC page, the
entry records, the number of TOC pages, the total page count after
`copyPages` appends every original page, and the title metadata. -/
structure TocDocument where
  headerDocTitle : JsStr
  headerUrl : JsStr
  entries : List TocEntry
  tocPageCount : Nat
  totalPageCount : Nat
  metaTitle : JsStr
deriving DecidableEq

/-- `addTOC(pdfBuffer, headings, title, url)` (part_001 lines 497-610; the
legacy variant in part_000 lines 299-412 shares the entry loop verbatim).
The header block lowers the cursor by 40 + 10 + 10 + 30 points below the
starting `height - margin`; `title` is drawn as-is, the URL through the
70-character truncation; `pageEstimate` is the content page count and
`currentPage` starts at 2; after the loop every content page is copied in
order behind the TOC pages. -/
def addTOC (content : ContentPdf) (headings : List Heading) (title url : JsStr) :
    TocDocument :=
  let initState : TocState :=
    { yPosition := tocPageHeight - tocMargin - 4000 - 1000 - 1000 - 3000
      pagesAllocated := 1
      currentPage := 2
      entries := [] }
  let finalState := tocLoop content.pageCount headings.length 0 headings initState
  { headerDocTitle := title
    headerUrl := truncateWithEllipsis 70 url
    entries := finalState.entries
    tocPageCount := finalState.pagesAllocated
    totalPageCount := finalState.pagesAllocated + content.pageCount
    metaTitle := title ++ " - Offline Archive".toList }

/-- What `generatePDFWithTOC` writes to disk: the composed document when
headings exist, the raw content buffer otherwise. -/
inductive ArchiveOutput where
  | raw (content : ContentPdf)
  | composed (doc : TocDocument)
deriving DecidableEq

/-- The composition decision in `generatePDFWithTOC`:
`if (headings.length > 0) { ... await this.addTOC(...) } else { pdfBuffer }`. -/
def generatePDFWithTOC (content : ContentPdf) (headings : List Heading)
    (title url : JsStr) : ArchiveOutput :=
  if 0 < headings.length then .composed (addTOC content headings title url)
  else .raw content

/-- Page count of the written file. -/
def outputPageCount : ArchiveOutput → Nat
  | .raw content => content.pageCount
  | .composed doc => doc.totalPageCount

/-- Number of TOC pages in the written file. -/
def outputTocPageCount : ArchiveOutput → Nat
  | .raw _ => 0
  | .composed doc => doc.tocPageCount

/-- Closed form of the estimate the loop computes for the heading at index
`i` (with `currentPage` fixed at its initial value 2). -/
def estimatedPageFormula (pageCount headingCount i : Nat) : Nat :=
  min (2 + i * pageCount / headingCount) (2 + pageCount - 1)

/-- Geometry measured inside `detectOptimalViewport`'s `page.evaluate`:
the widest content container (rect width plus horizontal margins, or the
body width when no candidate selector matches), the right edge of every
element, and the document scroll width. -/
structure PageGeometry where
  maxContentWidth : ℚ
  elementRightEdges : List ℚ
  scrollWidth : ℚ

/-- `documentWidth`: starts at `maxWidth` and is raised by every element
whose `rect.right` exceeds it. -/
def documentWidthOf (g : PageGeometry) : ℚ :=
  g.elementRightEdges.foldl (fun d r => if d < r then r else d) g.maxContentWidth

/-- The object the probe returns. -/
structure ViewportDimensions where
  contentWidth : ℤ
  documentWidth : ℤ
  scrollWidth : ℚ
  recommendedWidth : ℤ

/-- `detectOptimalViewport`'s result:
`recommendedWidth = Math.min(1400, Math.max(768, Math.ceil(documentWidth * 1.05)))`.
`scrollWidth` is measured and reported but does not feed the recommendation. -/
def detectOptimalViewport (g : PageGeometry) : ViewportDimensions :=
  { contentWidth := ⌈g.maxContentWidth⌉
    documentWidth := ⌈documentWidthOf g⌉
    scrollWidth := g.scrollWidth
    recommendedWidth := min 1400 (max 768 ⌈documentWidthOf g * 1.05⌉) }

/-- The recommendation as the specification words it (claim C5): the clamp
applied to the maximum of all three tracked widths, the scroll width
included.  Stated only to be compared with `detectOptimalViewport`. -/
def claimedRecommendedWidth (g : PageGeometry) : ℤ :=
  min 1400 (max 768 ⌈max (documentWidthOf g) g.scrollWidth * 1.05⌉)

/-- The CLI `--width` option as handed to the `BlogArchiver` constructor:
the literal string `'auto'`, a string `parseInt` reads as the integer `n`,
or a string `parseInt` turns into `NaN`. -/
inductive WidthOption where
  | autoWord
  | numeric (n : Int)
  | unparsable
deriving DecidableEq

/-- The `this.viewportWidth` field: `'auto'` or a number of pixels. -/
inductive ViewportWidth where
  | auto
  | px (n : Int)
deriving DecidableEq

/-- Constructor line
`this.viewportWidth = options.width === 'auto' ? 'auto' : (parseInt(options.width) || 'auto')`:
`0` and `NaN` are falsy, so both fall back to `'auto'`. -/
def initViewportWidth : WidthOption → ViewportWidth
  | .autoWord => .auto
  | .numeric n => if n = 0 then .auto else .px n
  | .unparsable => .auto

/-- The guard in `generatePDFWithTOC`:
`if (this.viewportWidth === 1280 || this.viewportWidth === 'auto')` runs
automatic width detection. -/
def autoDetectTriggered : ViewportWidth → Bool
  | .auto => true
  | .px n => n = 1280

/-- The width-handling prefix of one `generatePDFWithTOC` job: when the
guard fires, the detected width is stored into `this.viewportWidth` and the
viewport is set to it; otherwise the stored width is kept.  Returns whether
detection ran together with the stored width after the job, which is the
width the job renders at. -/
def viewportJobStep (vw : ViewportWidth) (measured : Int) : Bool × ViewportWidth :=
  if autoDetectTriggered vw then (true, .px measured) else (false, vw)

/-- The batch loop's effect on `this.viewportWidth`: the archiver instance
is shared by every URL, so each job starts from the width the previous job
stored.  `measurements` lists the width `detectOptimalViewport` would report
for each URL in turn. -/
def runBatchViewports : ViewportWidth → List Int → List (Bool × ViewportWidth)
  | _, [] => []
  | vw, m :: ms =>
      viewportJobStep vw m :: runBatchViewports (viewportJobStep vw m).2 ms

/-- Status tag of one entry of the CLI `results` array. -/
inductive JobStatus where
  | success
  | failed
deriving DecidableEq

/-- One record pushed into `results`: `{url, status: 'success', path}` or
`{url, status: 'failed', error}` (`info` is the path or the error text). -/
structure ResultRecord where
  url : String
  status : JobStatus
  info : String
deriving DecidableEq

/-- The per-URL processing loop of the CLI action: each iteration runs the
whole job inside `try { ... } catch (error) { results.push({url, status:
'failed', error}) }` and then continues with the next URL.  `runJob` is the
outcome of one job (output path, or the caught error's message). -/
def processUrls (runJob : String → Except String String) (urls : List String) :
    List ResultRecord :=
  urls.map fun url =>
    match runJob url with
    | .ok outPath => { url := url, status := .success, info := outPath }
    | .error e => { url := url, status := .failed, info := e }

/-- The summary's failed list: `results.filter(r => r.status === 'failed')`. -/
def failedResults (results : List ResultRecord) : List ResultRecord :=
  results.filter fun r => r.status == .failed

/-- A browser tab as the popup sees it (`tab.url` can be undefined). -/
structure Tab where
  url : Option JsStr
  title : JsStr
deriving DecidableEq

/-- What the generate-button click handler does: show a status line, or send
`{action: 'generatePDF', url, title}` to the background script. -/
inductive PopupAction where
  | status (message : String) (kind : String)
  | send (action : String) (url : JsStr) (title : JsStr)
deriving DecidableEq

/-- JS truthiness of `tab.url`: undefined and the empty string are falsy. -/
def jsTruthy : Option JsStr → Bool
  | none => false
  | some s => !s.isEmpty

/-- JS `s.startsWith(p)`. -/
def jsStartsWith (s p : JsStr) : Bool := s.take p.length == p

/-- The browser-internal scheme `'chrome://'`. -/
def chromeScheme : JsStr := "chrome://".toList

/-- The browser-internal scheme `'edge://'`. -/
def edgeScheme : JsStr := "edge://".toList

/-- The `generate-btn` click handler of the extension popup (popup.js lines
15-40): no tab, a falsy URL, or a `chrome://` or `edge://` URL short-circuit
into an error status; otherwise the generatePDF message is dispatched. -/
def generateClick : Option Tab → PopupAction
  | none => .status "No active tab found" "error"
  | some tab =>
      let u := tab.url.getD []
      if !jsTruthy tab.url || jsStartsWith u chromeScheme
          || jsStartsWith u edgeScheme then
        .status "Cannot generate PDF for this page" "error"
      else
        .send "generatePDF" u tab.title

/-- Thirty-six level-2 headings: enough entries for the layout cursor to
cross the bottom threshold (at the 35th entry) and force an overflow page. -/
def headings36 : List Heading :=
  List.replicate 36 { level := 2, text := "Section".toList }

/-- A one-page content document. -/
def onePagePdf : ContentPdf := { pageCount := 1, bytes := [1] }

/-- A three-page content document. -/
def threePagePdf : ContentPdf := { pageCount := 3, bytes := [1, 2, 3] }

/-- The spec's worked scenario: `[{level:1,"Intro"}, {level:2,"Details"}]`. -/
def introDetailsHeadings : List Heading :=
  [{ level := 1, text := "Intro".toList }, { level := 2, text := "Details".toList }]

/-- A 71-character title, one past the claimed 70-character threshold. -/
def title71 : JsStr := List.replicate 71 'a'

/-- Geometry whose scroll width dwarfs every other tracked width. -/
def wideScrollGeometry : PageGeometry :=
  { maxContentWidth := 800, elementRightEdges := [], scrollWidth := 2000 }

/-- A three-URL batch. -/
def demoUrls : List String :=
  ["https://a.example/", "https://b.example/", "https://c.example/"]

/-- A job oracle under which the middle URL of `demoUrls` times out and the
others archive fine. -/
def demoRunJob : String → Except String String := fun url =>
  if url = "https://b.example/" then
    .error "Navigation timeout of 60000 ms exceeded"
  else .ok (url ++ "out.pdf")

/-- A tab on an ordinary https page. -/
def demoTab : Tab :=
  { url := some "https://example.com/post".toList, title := "Post".toList }

/-! ## Helper lemmas about the TOC layout loop -/

theorem tocOverflowCheck_currentPage (st : TocState) :
    (tocOverflowCheck st).currentPage = st.currentPage := by
  unfold tocOverflowCheck; split <;> rfl

theorem tocOverflowCheck_entries (st : TocState) :
    (tocOverflowCheck st).entries = st.entries := by
  unfold tocOverflowCheck; split <;> rfl

theorem tocStep_currentPage (pe H i : Nat) (h : Heading) (st : TocState) :
    (tocStep pe H i h st).currentPage = st.currentPage := by
  unfold tocStep
  simp [tocOverflowCheck_currentPage]

theorem tocStep_entries_map_label (pe H i : Nat) (h : Heading) (st : TocState) :
    ((tocStep pe H i h st).entries).map TocEntry.pageLabel
      = st.entries.map TocEntry.pageLabel
        ++ [min (st.currentPage + i * pe / H) (st.currentPage + pe - 1)] := by
  unfold tocStep
  simp [tocOverflowCheck_entries, tocOverflowCheck_currentPage]

theorem tocStep_entries_map_text (pe H i : Nat) (h : Heading) (st : TocState) :
    ((tocStep pe H i h st).entries).map TocEntry.drawnText
      = st.entries.map TocEntry.drawnText ++ [truncateWithEllipsis 60 h.text] := by
  unfold tocStep
  simp [tocOverflowCheck_entries]

theorem tocLoop_entries_map_label (pe H : Nat) :
    ∀ (hs : List Heading) (i : Nat) (st : TocState),
      ((tocLoop pe H i hs st).entries).map TocEntry.pageLabel
        = st.entries.map TocEntry.pageLabel
          ++ (List.range hs.length).map
              (fun k => min (st.currentPage + (i + k) * pe / H)
                            (st.currentPage + pe - 1))
  | [], i, st => by simp [tocLoop]
  | h :: hs, i, st => by
      rw [tocLoop, tocLoop_entries_map_label pe H hs (i + 1) (tocStep pe H i h st),
        tocStep_entries_map_label, tocStep_currentPage]
      simp [List.range_succ_eq_map, List.map_map, Function.comp_def,
        Nat.succ_eq_add_one, Nat.add_right_comm, Nat.add_assoc]

theorem tocLoop_entries_map_text (pe H : Nat) :
    ∀ (hs : List Heading) (i : Nat) (st : TocState),
      ((tocLoop pe H i hs st).entries).map TocEntry.drawnText
        = st.entries.map TocEntry.drawnText
          ++ hs.map (fun h => truncateWithEllipsis 60 h.text)
  | [], i, st => by simp [tocLoop]
  | h :: hs, i, st => by
      rw [tocLoop, tocLoop_entries_map_text pe H hs (i + 1) (tocStep pe H i h st),
        tocStep_entries_map_text]
      simp

theorem addTOC_entries_labels (c : ContentPdf) (hs : List Heading)
    (title url : JsStr) :
    ((addTOC c hs title url).entries).map TocEntry.pageLabel
      = (List.range hs.length).map
          (fun k => estimatedPageFormula c.pageCount hs.length k) := by
  unfold addTOC estimatedPageFormula
  rw [tocLoop_entries_map_label]
  simp

theorem addTOC_entries_texts (c : ContentPdf) (hs : List Heading)
    (title url : JsStr) :
    ((addTOC c hs title url).entries).map TocEntry.drawnText
      = hs.map (fun h => truncateWithEllipsis 60 h.text) := by
  unfold addTOC
  rw [tocLoop_entries_map_text]
  simp

theorem addTOC_label_at (c : ContentPdf) (hs : List Heading) (title url : JsStr)
    (i : Nat) (hi : i < hs.length) :
    ((addTOC c hs title url).entries.map TocEntry.pageLabel)[i]?
      = some (estimatedPageFormula c.pageCount hs.length i) := by
  rw [addTOC_entries_labels, List.getElem?_map]
  simp [List.getElem?_range, hi]

/-! ## The claims -/

/-- Claim C1, amended.  The claim's `basePageOffset` — TOC pages already
allocated before the heading, plus one — is wrong: the source's
`currentPage` stays 2 however many overflow TOC pages the loop allocates.
Amended: for a content page count `P ≥ 1`, the heading at `sourceOrder = i`
is labelled `min(2 + ⌊i·P/H⌋, 2 + P - 1)` — the base offset is the constant
2 (the single up-front TOC page, plus one) — and every label lies in
`[2, 2 + P - 1]`. -/
theorem toc_estimate_basePageOffset_two (c : ContentPdf) (hs : List Heading)
    (title url : JsStr) (hP : 1 ≤ c.pageCount) (i : Nat) (hi : i < hs.length) :
    ((addTOC c hs title url).entries.map TocEntry.pageLabel)[i]?
        = some (estimatedPageFormula c.pageCount hs.length i)
    ∧ 2 ≤ estimatedPageFormula c.pageCount hs.length i
    ∧ estimatedPageFormula c.pageCount hs.length i ≤ 2 + c.pageCount - 1 := by
  refine ⟨addTOC_label_at c hs title url i hi, ?_, ?_⟩
  · unfold estimatedPageFormula
    exact le_min (Nat.le_add_right 2 _) (by omega)
  · unfold estimatedPageFormula
    exact min_le_right _ _

/-- Witness for C1's amended theorem at the spec's worked scenario
(`[{level:1,"Intro"}, {level:2,"Details"}]` over three content pages):
"Details" is labelled `min(2 + ⌊1·3/2⌋, 4) = 3`. -/
theorem toc_estimate_basePageOffset_two_witness :
    1 ≤ threePagePdf.pageCount ∧ 1 < introDetailsHeadings.length
    ∧ (((addTOC threePagePdf introDetailsHeadings "T".toList "U".toList).entries.map
          TocEntry.pageLabel)[1]?
        = some (estimatedPageFormula threePagePdf.pageCount introDetailsHeadings.length 1)
      ∧ 2 ≤ estimatedPageFormula threePagePdf.pageCount introDetailsHeadings.length 1
      ∧ estimatedPageFormula threePagePdf.pageCount introDetailsHeadings.length 1
          ≤ 2 + threePagePdf.pageCount - 1) :=
  ⟨by decide, by decide,
    toc_estimate_basePageOffset_two threePagePdf introDetailsHeadings
      "T".toList "U".toList (by decide) 1 (by decide)⟩

/-- Counterexample to C1 as stated: with 36 headings over a one-page content
document, the 35th and 36th entries are laid out after a second TOC page has
been allocated, so the claim's `basePageOffset` is 3 there — but the code
still labels them `min(2 + ⌊i/36⌋, 2) = 2`, below the claimed lower bound
`basePageOffset` (and off the claimed formula, which gives 3). -/
theorem toc_estimate_range_claim_false :
    ¬ (∀ e ∈ (addTOC onePagePdf headings36 "T".toList "U".toList).entries,
          e.pagesWhenDrawn + 1 ≤ e.pageLabel
          ∧ e.pageLabel ≤ e.pagesWhenDrawn + 1 + onePagePdf.pageCount - 1) := by
  decide

/-- Claim C9 (confirmed): estimated page labels are monotonically
non-decreasing in heading order — `currentPage` is constant and
`⌊i·P/H⌋` is monotone in `i`, and taking `min` with the constant page cap
preserves that. -/
theorem toc_estimates_monotone (c : ContentPdf) (hs : List Heading)
    (title url : JsStr) (i j : Nat) (hij : i ≤ j) (hj : j < hs.length)
    (hi2 : i < ((addTOC c hs title url).entries.map TocEntry.pageLabel).length)
    (hj2 : j < ((addTOC c hs title url).entries.map TocEntry.pageLabel).length) :
    ((addTOC c hs title url).entries.map TocEntry.pageLabel).get ⟨i, hi2⟩
      ≤ ((addTOC c hs title url).entries.map TocEntry.pageLabel).get ⟨j, hj2⟩ := by
  have hi : i < hs.length := lt_of_le_of_lt hij hj
  have e1 : ((addTOC c hs title url).entries.map TocEntry.pageLabel).get ⟨i, hi2⟩
      = estimatedPageFormula c.pageCount hs.length i := by
    have h1 := addTOC_label_at c hs title url i hi
    rw [List.getElem?_eq_getElem hi2] at h1
    rw [List.get_eq_getElem]
    exact Option.some.inj h1
  have e2 : ((addTOC c hs title url).entries.map TocEntry.pageLabel).get ⟨j, hj2⟩
      = estimatedPageFormula c.pageCount hs.length j := by
    have h2 := addTOC_label_at c hs title url j hj
    rw [List.getElem?_eq_getElem hj2] at h2
    rw [List.get_eq_getElem]
    exact Option.some.inj h2
  rw [e1, e2]
  unfold estimatedPageFormula
  exact min_le_min
    (Nat.add_le_add_left (Nat.div_le_div_right (Nat.mul_le_mul_right _ hij)) 2)
    le_rfl

/-- Witness for C9 at the spec's worked scenario: "Intro" (label 2) precedes
"Details" (label 3). -/
theorem toc_estimates_monotone_witness :
    (0 : Nat) ≤ 1
    ∧ ((addTOC threePagePdf introDetailsHeadings "T".toList "U".toList).entries.map
          TocEntry.pageLabel).get ⟨0, by decide⟩
        ≤ ((addTOC threePagePdf introDetailsHeadings "T".toList "U".toList).entries.map
            TocEntry.pageLabel).get ⟨1, by decide⟩ :=
  ⟨by decide,
    toc_estimates_monotone threePagePdf introDetailsHeadings "T".toList "U".toList
      0 1 (by decide) (by decide) (by decide) (by decide)⟩

/-- Claim C2 (confirmed): the written file's page count is always the TOC
page count plus the content page count, and with no headings no TOC page is
added — the raw content buffer is written unchanged. -/
theorem output_pageCount_toc_plus_content (content : ContentPdf)
    (hs : List Heading) (title url : JsStr) :
    outputPageCount (generatePDFWithTOC content hs title url)
        = outputTocPageCount (generatePDFWithTOC content hs title url)
          + content.pageCount
    ∧ (hs = [] →
        generatePDFWithTOC content hs title url = .raw content
        ∧ outputTocPageCount (generatePDFWithTOC content hs title url) = 0) := by
  cases hs with
  | nil => simp [generatePDFWithTOC, outputPageCount, outputTocPageCount]
  | cons h t =>
      refine ⟨?_, by simp⟩
      simp [generatePDFWithTOC, outputPageCount, outputTocPageCount, addTOC]

/-- Witness for C2 with an empty heading sequence over three content
pages: the output is the raw three-page buffer, with zero TOC pages. -/
theorem output_pageCount_toc_plus_content_witness :
    outputPageCount (generatePDFWithTOC threePagePdf [] "T".toList "U".toList)
        = outputTocPageCount (generatePDFWithTOC threePagePdf [] "T".toList "U".toList)
          + threePagePdf.pageCount
    ∧ generatePDFWithTOC threePagePdf [] "T".toList "U".toList = .raw threePagePdf
    ∧ outputTocPageCount (generatePDFWithTOC threePagePdf [] "T".toList "U".toList) = 0 := by
  have h := output_pageCount_toc_plus_content threePagePdf [] "T".toList "U".toList
  exact ⟨h.1, (h.2 rfl).1, (h.2 rfl).2⟩

/-- Claim C3 is a code bug.  With 36 level-2 headings the cursor crosses the
bottom threshold before the 35th entry: a second TOC page is allocated and
the cursor is reset to the top margin (the 35th entry's `y` is
`height - margin`), exactly as claimed — but every entry, the post-overflow
ones included, is drawn on the first TOC page (`tocPage`), not on the newly
allocated page, which stays blank. -/
theorem toc_overflow_page_never_receives_entries :
    (addTOC threePagePdf headings36 "T".toList "U".toList).tocPageCount = 2
    ∧ ((addTOC threePagePdf headings36 "T".toList "U".toList).entries.map
        TocEntry.y)[34]? = some (tocPageHeight - tocMargin)
    ∧ ∀ e ∈ (addTOC threePagePdf headings36 "T".toList "U".toList).entries,
        e.drawnOnPage = 0 :=
  ⟨by decide, by decide, by decide⟩

/-- Claim C4, amended.  Heading texts over 60 characters and URLs over 70
characters are truncated with an ellipsis suffix, and fields at or under
their thresholds are drawn unmodified — but the claim is wrong about the
document title, which the source draws as-is whatever its length. -/
theorem toc_truncation_amended (c : ContentPdf) (hs : List Heading)
    (title url : JsStr) :
    (addTOC c hs title url).headerDocTitle = title
    ∧ (url.length ≤ 70 → (addTOC c hs title url).headerUrl = url)
    ∧ (70 < url.length →
        (addTOC c hs title url).headerUrl = url.take 70 ++ "...".toList)
    ∧ (addTOC c hs title url).entries.map TocEntry.drawnText
        = hs.map (fun h => truncateWithEllipsis 60 h.text)
    ∧ (∀ t : JsStr, t.length ≤ 60 → truncateWithEllipsis 60 t = t)
    ∧ (∀ t : JsStr, 60 < t.length →
        truncateWithEllipsis 60 t = t.take 60 ++ "...".toList) := by
  refine ⟨rfl, ?_, ?_, addTOC_entries_texts c hs title url, ?_, ?_⟩
  · intro h
    show truncateWithEllipsis 70 url = url
    simp [truncateWithEllipsis, Nat.not_lt.mpr h, List.take_of_length_le h]
  · intro h
    show truncateWithEllipsis 70 url = url.take 70 ++ "...".toList
    simp [truncateWithEllipsis, h]
  · intro t h
    simp [truncateWithEllipsis, Nat.not_lt.mpr h, List.take_of_length_le h]
  · intro t h
    simp [truncateWithEllipsis, h]

/-- Witness for C4's amended theorem: a 5-character URL is drawn unmodified,
the 71-character title is drawn unmodified, and a 71-character heading text
is truncated to its first 60 characters plus an ellipsis. -/
theorem toc_truncation_amended_witness :
    ("short".toList.length ≤ 70
      ∧ (addTOC onePagePdf introDetailsHeadings title71 "short".toList).headerUrl
          = "short".toList)
    ∧ (addTOC onePagePdf introDetailsHeadings title71 "short".toList).headerDocTitle
        = title71
    ∧ (60 < title71.length
      ∧ truncateWithEllipsis 60 title71 = title71.take 60 ++ "...".toList) := by
  have h := toc_truncation_amended onePagePdf introDetailsHeadings title71 "short".toList
  exact ⟨⟨by decide, h.2.1 (by decide)⟩, h.1, by decide, h.2.2.2.2.2 title71 (by decide)⟩

/-- Counterexample to C4 as stated: the 71-character document title is past
the claimed 70-character threshold, yet the header draws it as-is, not in
the truncated-with-ellipsis form the claim requires. -/
theorem toc_title_truncation_claim_false :
    70 < title71.length
    ∧ (addTOC onePagePdf introDetailsHeadings title71 "U".toList).headerDocTitle
        ≠ truncateWithEllipsis 70 title71 :=
  ⟨by decide, by decide⟩

/-- Claim C5, amended.  The recommendation clamps the padded `documentWidth`
— the maximum of the content-container width and every element's right edge
— into `[768, 1400]`; the document scroll width is measured and reported but,
against the claim, does not enter the recommendation.  The clamp holds for
every geometry, including a zero-width document (768) and a 10000px-wide one
(1400). -/
theorem recommended_width_formula_and_clamped (g : PageGeometry) :
    (detectOptimalViewport g).recommendedWidth
        = min 1400 (max 768 ⌈documentWidthOf g * 1.05⌉)
    ∧ 768 ≤ (detectOptimalViewport g).recommendedWidth
    ∧ (detectOptimalViewport g).recommendedWidth ≤ 1400
    ∧ (detectOptimalViewport
        { maxContentWidth := 0, elementRightEdges := [], scrollWidth := 0 }).recommendedWidth
        = 768
    ∧ (detectOptimalViewport
        { maxContentWidth := 10000, elementRightEdges := [], scrollWidth := 10000 }).recommendedWidth
        = 1400 := by
  refine ⟨rfl, le_min (by norm_num) (le_max_left _ _), min_le_left _ _, ?_, ?_⟩
  · show min 1400 (max 768 ⌈documentWidthOf _ * 1.05⌉) = 768
    norm_num [documentWidthOf]
  · show min 1400 (max 768 ⌈documentWidthOf _ * 1.05⌉) = 1400
    norm_num [documentWidthOf]

/-- Counterexample to C5 as stated: with a content width of 800px and a
scroll width of 2000px, the code recommends `clamp(ceil(800·1.05))` = 840,
not the 1400 the claim's scroll-width-inclusive maximum would give. -/
theorem recommended_width_ignores_scrollWidth :
    (detectOptimalViewport wideScrollGeometry).recommendedWidth = 840
    ∧ claimedRecommendedWidth wideScrollGeometry = 1400
    ∧ (detectOptimalViewport wideScrollGeometry).recommendedWidth
        ≠ claimedRecommendedWidth wideScrollGeometry := by
  have h1 : (detectOptimalViewport wideScrollGeometry).recommendedWidth = 840 := by
    show min 1400 (max 768 ⌈documentWidthOf _ * 1.05⌉) = 840
    norm_num [documentWidthOf, wideScrollGeometry]
  have h2 : claimedRecommendedWidth wideScrollGeometry = 1400 := by
    unfold claimedRecommendedWidth
    norm_num [documentWidthOf, wideScrollGeometry]
  exact ⟨h1, h2, by rw [h1, h2]; norm_num⟩

/-- Claim C6, amended.  A nonzero numeric `--width` other than 1280 becomes
the stored viewport width and makes the job skip auto-detection and render
at that width.  The claim's "whatever numeric value it has" is wrong: a
supplied 1280 still triggers detection (and 0 or an unparsable string fall
back to `'auto'`). -/
theorem manual_width_override_skips_detection (n measured : Int)
    (h0 : n ≠ 0) (h1280 : n ≠ 1280) :
    initViewportWidth (.numeric n) = .px n
    ∧ viewportJobStep (initViewportWidth (.numeric n)) measured = (false, .px n) := by
  have h1 : initViewportWidth (.numeric n) = .px n := by
    simp [initViewportWidth, h0]
  refine ⟨h1, ?_⟩
  rw [h1]
  simp [viewportJobStep, autoDetectTriggered, h1280]

/-- Witness for C6's amended theorem: `--width 1000` skips detection and
renders at 1000 whatever the measurement would have said. -/
theorem manual_width_override_skips_detection_witness :
    (1000 : Int) ≠ 0 ∧ (1000 : Int) ≠ 1280
    ∧ initViewportWidth (.numeric 1000) = .px 1000
    ∧ viewportJobStep (initViewportWidth (.numeric 1000)) 777 = (false, .px 1000) := by
  have h := manual_width_override_skips_detection 1000 777 (by decide) (by decide)
  exact ⟨by decide, by decide, h.1, h.2⟩

/-- Counterexample to C6 as stated: the explicit numeric override 1280
does not take precedence — the guard `viewportWidth === 1280` runs
auto-detection anyway, and the job renders at the detected 999, not at the
supplied 1280. -/
theorem override_1280_triggers_detection :
    viewportJobStep (initViewportWidth (.numeric 1280)) 999 = (true, .px 999)
    ∧ (true, ViewportWidth.px 999) ≠ (false, ViewportWidth.px 1280) :=
  ⟨by decide, by decide⟩

/-- Claim C7, amended.  In an auto-width batch only the first job measures
(as long as the detected width is not exactly 1280): the width detected for
job 1 is stored in the shared `this.viewportWidth` and reused, without
re-measurement, as the rendering width of every later job. -/
theorem first_detected_width_reused_in_batch (d : Int) (ms : List Int)
    (hd : d ≠ 1280) :
    runBatchViewports .auto (d :: ms)
      = (true, ViewportWidth.px d) :: ms.map (fun _ => (false, ViewportWidth.px d)) := by
  have hstep : viewportJobStep .auto d = (true, .px d) := by
    simp [viewportJobStep, autoDetectTriggered]
  have hpx : ∀ ms2 : List Int, runBatchViewports (.px d) ms2
      = ms2.map (fun _ => (false, ViewportWidth.px d)) := by
    intro ms2
    induction ms2 with
    | nil => simp [runBatchViewports]
    | cons m rest ih =>
        have hs2 : viewportJobStep (.px d) m = (false, .px d) := by
          simp [viewportJobStep, autoDetectTriggered, hd]
        simp [runBatchViewports, hs2, ih]
  simp [runBatchViewports, hstep, hpx ms]

/-- Witness for C7's amended theorem: a two-URL auto-width batch whose first
job measures 800 — the second job does not measure and renders at 800. -/
theorem first_detected_width_reused_in_batch_witness :
    (800 : Int) ≠ 1280
    ∧ runBatchViewports .auto (800 :: [900])
        = (true, ViewportWidth.px 800)
          :: [(900 : Int)].map (fun _ => (false, ViewportWidth.px 800)) :=
  ⟨by decide, first_detected_width_reused_in_batch 800 [900] (by decide)⟩

/-- Counterexample to C7 as stated: in the batch measuring 800 then 900, the
second job neither measures afresh nor renders at its own measurement — it
reuses job 1's 800. -/
theorem batch_jobs_not_measured_afresh :
    runBatchViewports .auto [800, 900]
        = [(true, ViewportWidth.px 800), (false, ViewportWidth.px 800)]
    ∧ ¬ (∀ r ∈ runBatchViewports .auto [800, 900], r.1 = true) :=
  ⟨by decide, by decide⟩

/-- Claim C8 (confirmed): a job that fails is recorded as a per-job failure
record carrying its URL and error, that record is in the summary's failed
list, and every URL in the batch — the ones after the failure included —
still gets its own result record in order. -/
theorem job_failure_recorded_batch_continues
    (runJob : String → Except String String) (urls : List String)
    (i : Nat) (hiu : i < urls.length)
    (hir : i < (processUrls runJob urls).length) (e : String)
    (hfail : runJob (urls.get ⟨i, hiu⟩) = .error e) :
    (processUrls runJob urls).length = urls.length
    ∧ (processUrls runJob urls).get ⟨i, hir⟩
        = { url := urls.get ⟨i, hiu⟩, status := .failed, info := e }
    ∧ ({ url := urls.get ⟨i, hiu⟩, status := .failed, info := e } : ResultRecord)
        ∈ failedResults (processUrls runJob urls)
    ∧ ∀ j (hju : j < urls.length) (hjr : j < (processUrls runJob urls).length),
        ((processUrls runJob urls).get ⟨j, hjr⟩).url = urls.get ⟨j, hju⟩ := by
  have hfail2 : runJob urls[i] = Except.error e := hfail
  have hc2 : (processUrls runJob urls).get ⟨i, hir⟩
      = { url := urls.get ⟨i, hiu⟩, status := .failed, info := e } := by
    rw [List.get_eq_getElem]
    simp [processUrls, List.getElem_map, hfail2]
  refine ⟨by simp [processUrls], hc2, ?_, ?_⟩
  · have hm : ({ url := urls.get ⟨i, hiu⟩, status := .failed, info := e } : ResultRecord)
        ∈ processUrls runJob urls := hc2 ▸ List.get_mem _ i hir
    exact List.mem_filter.mpr ⟨hm, rfl⟩
  · intro j hju hjr
    rw [List.get_eq_getElem]
    simp only [processUrls, List.getElem_map]
    cases runJob urls[j] <;> rfl

/-- Witness for C8: in the three-URL batch whose middle job times out, the
failure record for the middle URL lands in the failed list and the third URL
still gets its own record. -/
theorem job_failure_recorded_batch_continues_witness :
    demoRunJob (demoUrls.get ⟨1, by decide⟩)
        = Except.error "Navigation timeout of 60000 ms exceeded"
    ∧ (processUrls demoRunJob demoUrls).length = demoUrls.length
    ∧ (processUrls demoRunJob demoUrls).get ⟨1, by decide⟩
        = { url := demoUrls.get ⟨1, by decide⟩, status := .failed,
            info := "Navigation timeout of 60000 ms exceeded" }
    ∧ ({ url := demoUrls.get ⟨1, by decide⟩, status := .failed,
         info := "Navigation timeout of 60000 ms exceeded" } : ResultRecord)
        ∈ failedResults (processUrls demoRunJob demoUrls)
    ∧ ((processUrls demoRunJob demoUrls).get ⟨2, by decide⟩).url
        = demoUrls.get ⟨2, by decide⟩ := by
  have h := job_failure_recorded_batch_continues demoRunJob demoUrls 1 (by decide)
      (by decide) "Navigation timeout of 60000 ms exceeded" (by rfl)
  exact ⟨by rfl, h.1, h.2.1, h.2.2.1, h.2.2.2 2 (by decide) (by decide)⟩

/-- Claim C10 (confirmed): the popup dispatches the generatePDF message
exactly for a present, nonempty tab URL outside the `chrome://` and
`edge://` schemes; a missing, empty, or browser-internal URL yields the
error status instead, and conversely any dispatched message certifies a
valid URL. -/
theorem popup_sends_only_for_valid_url (tab : Tab) :
    (∀ u : JsStr, tab.url = some u → u ≠ [] →
        jsStartsWith u chromeScheme = false →
        jsStartsWith u edgeScheme = false →
        generateClick (some tab) = .send "generatePDF" u tab.title)
    ∧ (jsTruthy tab.url = false →
        generateClick (some tab) = .status "Cannot generate PDF for this page" "error")
    ∧ (∀ u : JsStr, tab.url = some u →
        (jsStartsWith u chromeScheme = true ∨ jsStartsWith u edgeScheme = true) →
        generateClick (some tab) = .status "Cannot generate PDF for this page" "error")
    ∧ (∀ a u t, generateClick (some tab) = .send a u t →
        tab.url = some u ∧ u ≠ []
        ∧ jsStartsWith u chromeScheme = false
        ∧ jsStartsWith u edgeScheme = false) := by
  refine ⟨?_, ?_, ?_, ?_⟩
  · intro u hu hne hc he
    have htr : jsTruthy (some u) = true := by
      cases u with
      | nil => exact absurd rfl hne
      | cons a as => rfl
    simp [generateClick, hu, htr, hc, he]
  · intro hfalsy
    cases htab : tab.url with
    | none => simp [generateClick, htab, jsTruthy]
    | some u =>
        rw [htab] at hfalsy
        simp [generateClick, htab, hfalsy]
  · intro u hu hor
    rcases hor with hc | he
    · simp [generateClick, hu, hc]
    · simp [generateClick, hu, he]
  · intro a u t hsend
    cases htab : tab.url with
    | none => simp [generateClick, htab, jsTruthy] at hsend
    | some v =>
        cases hv : v.isEmpty with
        | true =>
            have hnil : v = [] := by
              cases v with
              | nil => rfl
              | cons a as => simp [List.isEmpty] at hv
            subst hnil
            simp [generateClick, htab, jsTruthy] at hsend
        | false =>
            have htr : jsTruthy (some v) = true := by simp [jsTruthy, hv]
            cases hc : jsStartsWith v chromeScheme with
            | true => simp [generateClick, htab, htr, hc] at hsend
            | false =>
                cases he : jsStartsWith v edgeScheme with
                | true => simp [generateClick, htab, htr, hc, he] at hsend
                | false =>
                    simp [generateClick, htab, htr, hc, he] at hsend
                    obtain ⟨ha, hvu, ht⟩ := hsend
                    subst hvu
                    have hne : v ≠ [] := by
                      intro hn
                      rw [hn] at hv
                      simp [List.isEmpty] at hv
                    exact ⟨rfl, hne, hc, he⟩

/-- Witness for C10 on a tab at an ordinary https URL: the generatePDF
message is dispatched with that URL and the tab's title. -/
theorem popup_sends_only_for_valid_url_witness :
    demoTab.url = some "https://example.com/post".toList
    ∧ generateClick (some demoTab)
        = .send "generatePDF" "https://example.com/post".toList demoTab.title := by
  have h := popup_sends_only_for_valid_url demoTab
  exact ⟨rfl, h.1 "https://example.com/post".toList rfl (by decide) (by decide) (by decide)⟩

end BlogScrapper
